import Mathlib

set_option maxRecDepth 16384

/-!
Shallow embedding of the PAM bridge from `lib/pam` (files `config.go` and the
cgo bridge in `pam.go`, plus the no-op fallback build), together with proofs
of the behavioural properties stated in the design specification.

Native calls (`_pam_start`, `_pam_acct_mgmt`, `_pam_open_session`,
`_pam_close_session`, `_pam_end`, `_pam_strerror`) are modelled by an oracle
recording the status code each call returns; `Open` and `Close` additionally
return the list of transaction calls they issued, so ordering and
short-circuiting can be stated.  I/O streams are modelled by their observable
behaviour: a destination tag for the two output streams, and the line (or
read failure) that `bufio.ReadString` would produce for the input stream.
-/

namespace Pam

/-- A native PAM status code (a C `int`). -/
abbrev Code := Int

/-- `PAM_SUCCESS` from `security/pam_appl.h`: the success status code, 0. -/
def PAM_SUCCESS : Code := 0

/-- `PAM_MAX_MSG_SIZE` from the Linux-PAM header `_pam_types.h` (included via
`security/pam_appl.h`): the maximum length of a conversation message. -/
def PAM_MAX_MSG_SIZE : Nat := 512

/-- `PAM_MAX_RESP_SIZE` from the Linux-PAM header `_pam_types.h`: the maximum
length of a conversation response, terminator included. -/
def PAM_MAX_RESP_SIZE : Nat := 512

/-- The NUL character terminating a C string. -/
def nulChar : Char := Char.ofNat 0

/-- `syscall.Stderr`: the file descriptor number of standard error. -/
def syscallStderr : Nat := 2

/-- The two output destinations a conversation message can be routed to
(`p.stdout` and `p.stderr` in `PAM.writeStream`). -/
inductive Dest where
  | stdout
  | stderr
  deriving DecidableEq, Repr

/-- `lib/pam/config.go`, `Config`: the session configuration.  The three
stream handles are modelled by observable behaviour: `stdinLine` is the result
of reading one line from `Stdin` (`none` models a read error such as end of
stream); `Stdout` and `Stderr` are identified by `Dest` tags. -/
structure Config where
  Enabled : Bool
  ServiceName : String
  Username : String
  stdinLine : Option (List Char)

/-- Whether `pat` occurs at the very head of `s` (a `bytes.Index` match at
offset 0). -/
def startsWith (s pat : List Char) : Bool :=
  decide (s.take pat.length = pat)

/-- Go `bytes.Replace(s, old, new, -1)`: every non-overlapping occurrence of
`old`, scanned left to right, is replaced by `new`; after a match the scan
resumes past the matched segment.  With an empty `old`, `new` is inserted
before every byte and after the last one, matching Go's documented empty
pattern behaviour (the bridge only calls this with the one-byte pattern
`"\n"`). -/
def bytesReplace (s old new : List Char) : List Char :=
  if old.isEmpty then
    new ++ s.flatMap (fun c => c :: new)
  else
    match s with
    | [] => []
    | c :: cs =>
      if startsWith (c :: cs) old then
        new ++ bytesReplace ((c :: cs).drop old.length) old new
      else
        c :: bytesReplace cs old new
termination_by s.length
decreasing_by
  · have hol : 0 < old.length := by
      cases old with
      | nil => simp_all
      | cons a as => simp
    simp only [List.length_drop, List.length_cons]
    omega
  · simp

/-- C `strnlen(s, maxlen)`: the number of characters before the first NUL,
capped at `maxlen`. -/
def strnlen (s : List Char) (maxlen : Nat) : Nat :=
  ((s.take maxlen).takeWhile (fun c => c != nulChar)).length

/-- `C.GoStringN(s, n)`: the first `n` characters of `s`. -/
def goStringN (s : List Char) (n : Nat) : List Char :=
  s.take n

/-- The `handler` interface registered in the package-level table.  For the
properties below a handler's observable state is the behaviour of its input
stream: `stdinLine` is the line its `readStream` produces (`none` models a
stream read error). -/
structure Handler where
  stdinLine : Option (List Char)
  deriving DecidableEq, Repr

/-- `PAM.writeStream`: route to `p.stderr` when `stream == syscall.Stderr`
and to `p.stdout` otherwise, then write the text with every `"\n"` replaced
by `"\r\n"` (`bytes.Replace` with count -1).  The result records the chosen
destination and the exact byte sequence handed to its `Write`. -/
def writeStream (stream : Nat) (s : List Char) : Dest × List Char :=
  (if stream = syscallStderr then Dest.stderr else Dest.stdout,
   bytesReplace s [Char.ofNat 10] [Char.ofNat 13, Char.ofNat 10])

/-- `PAM.readStream`: read one line from `p.stdin` via `bufio.ReadString`;
on a read error the wrapped error is returned (modelled as `none`).  The
`echo` flag is accepted but not honoured (a documented limitation). -/
def readStream (h : Handler) (echo : Bool) : Option (List Char) :=
  h.stdinLine

/-- The exported `writeCallback(index, stream, s)`: look the handler up in
the package-level table; if absent, log and return (modelled `none`); else
truncate the incoming C string with `strnlen` at `PAM_MAX_MSG_SIZE` and hand
it to `writeStream`.  The `some` result records what was written where. -/
def writeCallback (handlers : Nat → Option Handler) (index : Nat)
    (stream : Nat) (s : List Char) : Option (Dest × List Char) :=
  match handlers index with
  | none => none
  | some _ =>
    some (writeStream stream (goStringN s (strnlen s PAM_MAX_MSG_SIZE)))

/-- The exported `readCallback(index, e)`: look the handler up; if absent,
log and return NULL (`none`); else read a line; on a read error log and
return NULL (`none`); else return the line truncated to
`PAM_MAX_RESP_SIZE - 1` characters, reserving one byte for the NUL
terminator `C.CString` appends. -/
def readCallback (handlers : Nat → Option Handler) (index : Nat)
    (e : Int) : Option (List Char) :=
  match handlers index with
  | none => none
  | some h =>
    let echo : Bool := e == 1
    match readStream h echo with
    | none => none
    | some s =>
      let n := PAM_MAX_RESP_SIZE
      if s.length > n - 1 then some (s.take (n - 1)) else some s

/-- The package-level handler registry: `handlerCount` and the map
`handlers`.  The Go map is modelled as a function to `Option Handler`, so a
key holds at most one handler by construction; all three registry operations
run under the single `handlerMu` lock, which the sequential model reflects. -/
structure RegistryState where
  handlerCount : Nat
  handlers : Nat → Option Handler

/-- The registry at process start: `handlerCount = 0`, empty map. -/
def initRegistry : RegistryState :=
  { handlerCount := 0, handlers := fun _ => none }

/-- `registerHandler`: increment `handlerCount`, store the handler under the
new count (this is also where `make_pam_conv` allocates the conversation
descriptor embedding the id), and return the id. -/
def registerHandler (reg : RegistryState) (h : Handler) : RegistryState × Nat :=
  let n := reg.handlerCount + 1
  ({ handlerCount := n,
     handlers := fun i => if i = n then some h else reg.handlers i }, n)

/-- `unregisterHandler`: delete the id from the map. -/
def unregisterHandler (reg : RegistryState) (handlerIndex : Nat) : RegistryState :=
  { reg with
    handlers := fun i => if i = handlerIndex then none else reg.handlers i }

/-- One serialized registry operation (the `handlerMu` lock serializes every
interleaving of concurrent calls into such a sequence). -/
inductive RegOp where
  | register (h : Handler)
  | unregister (idx : Nat)

/-- Apply one registry operation. -/
def regStep (reg : RegistryState) : RegOp → RegistryState
  | .register h => (registerHandler reg h).1
  | .unregister idx => unregisterHandler reg idx

/-- Run a sequence of registry operations from the initial registry. -/
def regRun (ops : List RegOp) : RegistryState :=
  ops.foldl regStep initRegistry

/-- Registry invariant: every currently-registered id is positive and at most
`handlerCount`. -/
def regInv (reg : RegistryState) : Prop :=
  ∀ i, (reg.handlers i).isSome = true → 0 < i ∧ i ≤ reg.handlerCount

/-- Results of the native PAM calls for one transaction, as an oracle: each
field is the status code the corresponding dlsym-dispatched call returns, and
`pam_strerror` is the status-to-text lookup (`none` models a NULL result). -/
structure NativeOracle where
  pam_start : Code
  pam_acct_mgmt : Code
  pam_open_session : Code
  pam_close_session : Code
  pam_end : Code
  pam_strerror : Code → Option String

/-- The error values the bridge produces: `trace.BadParameter(msg)` is used
both for a missing configuration and by `codeToError`. -/
inductive PamError where
  | badParameter (msg : String)
  deriving DecidableEq, Repr

/-- `PAM.codeToError`: call `_pam_strerror`; if it yields a string, return
`trace.BadParameter` of it; if it yields NULL, return nil (`none`). -/
def codeToError (o : NativeOracle) (returnValue : Code) : Option PamError :=
  match o.pam_strerror returnValue with
  | some msg => some (.badParameter msg)
  | none => none

/-- The transaction-level native calls, for recording issue order. -/
inductive NativeCall where
  | pam_start
  | pam_acct_mgmt
  | pam_open_session
  | pam_close_session
  | pam_end
  deriving DecidableEq, Repr

/-- The `PAM` context struct of the cgo bridge (the opaque `pamh` and `conv`
pointers are not modelled beyond the allocation counts recorded by `Open` and
`Close`). -/
structure PAMSession where
  service_name : String
  user : String
  handlerIndex : Nat
  retval : Code
  deriving DecidableEq, Repr

/-- Observable outcome of `Open`: the returned `(*PAM, error)` pair, the
transaction calls issued in order, the number of native allocations made
(the two `C.CString` buffers and the conversation descriptor), and whether a
handler was registered. -/
structure OpenResult where
  session : Option PAMSession
  err : Option PamError
  calls : List NativeCall
  allocs : Nat
  registered : Bool
  deriving DecidableEq, Repr

/-- `Open(config)` of the cgo bridge: nil-config check, then allocate the two
C strings, register a handler (allocating the conversation descriptor), then
`_pam_start`, `_pam_acct_mgmt`, `_pam_open_session` in order, each checked
against `PAM_SUCCESS` and translated through `codeToError` on failure. -/
def Open (o : NativeOracle) (reg : RegistryState) (config : Option Config) :
    OpenResult × RegistryState :=
  match config with
  | none =>
    ({ session := none,
       err := some (.badParameter "PAM configuration is required."),
       calls := [], allocs := 0, registered := false }, reg)
  | some c =>
    let (reg1, idx) := registerHandler reg { stdinLine := c.stdinLine }
    let r1 := o.pam_start
    if r1 ≠ PAM_SUCCESS then
      ({ session := none, err := codeToError o r1,
         calls := [.pam_start], allocs := 3, registered := true }, reg1)
    else
      let r2 := o.pam_acct_mgmt
      if r2 ≠ PAM_SUCCESS then
        ({ session := none, err := codeToError o r2,
           calls := [.pam_start, .pam_acct_mgmt], allocs := 3,
           registered := true }, reg1)
      else
        let r3 := o.pam_open_session
        if r3 ≠ PAM_SUCCESS then
          ({ session := none, err := codeToError o r3,
             calls := [.pam_start, .pam_acct_mgmt, .pam_open_session],
             allocs := 3, registered := true }, reg1)
        else
          ({ session := some { service_name := c.ServiceName,
                               user := c.Username,
                               handlerIndex := idx, retval := r3 },
             err := none,
             calls := [.pam_start, .pam_acct_mgmt, .pam_open_session],
             allocs := 3, registered := true }, reg1)

/-- Observable outcome of `Close`: the returned error, the transaction calls
issued in order, which of the three native allocations were freed, and
whether the handler index was unregistered. -/
structure CloseResult where
  err : Option PamError
  calls : List NativeCall
  freedConv : Bool
  freedServiceName : Bool
  freedUser : Bool
  unregistered : Bool
  deriving DecidableEq, Repr

/-- `PAM.Close()` of the cgo bridge: `_pam_close_session`, then `_pam_end`,
each checked against `PAM_SUCCESS` with an early return through
`codeToError` on failure; only after both succeed are `p.conv`,
`p.service_name` and `p.user` freed (each by a single `C.free`) and the
handler index unregistered. -/
def Close (o : NativeOracle) (reg : RegistryState) (p : PAMSession) :
    CloseResult × RegistryState :=
  let r1 := o.pam_close_session
  if r1 ≠ PAM_SUCCESS then
    ({ err := codeToError o r1, calls := [.pam_close_session],
       freedConv := false, freedServiceName := false, freedUser := false,
       unregistered := false }, reg)
  else
    let r2 := o.pam_end
    if r2 ≠ PAM_SUCCESS then
      ({ err := codeToError o r2, calls := [.pam_close_session, .pam_end],
         freedConv := false, freedServiceName := false, freedUser := false,
         unregistered := false }, reg)
    else
      ({ err := none, calls := [.pam_close_session, .pam_end],
         freedConv := true, freedServiceName := true, freedUser := true,
         unregistered := true }, unregisterHandler reg p.handlerIndex)

/-- The first failing transaction code of `Open`'s three-call sequence, if
any. -/
def firstFailure (o : NativeOracle) : Option Code :=
  if o.pam_start ≠ PAM_SUCCESS then some o.pam_start
  else if o.pam_acct_mgmt ≠ PAM_SUCCESS then some o.pam_acct_mgmt
  else if o.pam_open_session ≠ PAM_SUCCESS then some o.pam_open_session
  else none

namespace Nop

/-- The no-op fallback build (`+build !pam,cgo`): PAM support not compiled
in. -/
def buildHasPAM : Bool := false

/-- No-op fallback build: no runtime PAM library is ever looked up. -/
def systemHasPAM : Bool := false

/-- The empty `PAM` struct of the fallback build. -/
structure PAM where
  deriving DecidableEq, Repr

/-- Fallback `Open(config)`: returns a fresh context and nil error for every
argument, including a nil configuration. -/
def Open (config : Option Config) : Option PAM × Option PamError :=
  (some PAM.mk, none)

/-- Fallback `Close()`: returns nil. -/
def Close (p : PAM) : Option PamError :=
  none

/-- Fallback `BuildHasPAM()`. -/
def BuildHasPAM : Bool := buildHasPAM

/-- Fallback `SystemHasPAM()`. -/
def SystemHasPAM : Bool := systemHasPAM

end Nop

/-- A handler with one pending input line `"hi\n"`. -/
def hA : Handler := { stdinLine := some ['h', 'i', Char.ofNat 10] }

/-- A handler whose input stream fails (for instance at end of stream). -/
def hNoLine : Handler := { stdinLine := none }

/-- A line of `PAM_MAX_RESP_SIZE + 10` characters. -/
def longLine : List Char := List.replicate (PAM_MAX_RESP_SIZE + 10) 'b'

/-- A handler whose input stream yields an oversized line. -/
def hLong : Handler := { stdinLine := some longLine }

/-- A message of `PAM_MAX_MSG_SIZE + 50` characters, NUL-free. -/
def longMsg : List Char := List.replicate (PAM_MAX_MSG_SIZE + 50) 'a'

/-- A concrete session configuration. -/
def cfg0 : Config :=
  { Enabled := true, ServiceName := "sshd", Username := "alice",
    stdinLine := some ['h', 'i', Char.ofNat 10] }

/-- A concrete session context, as a successful `Open` on the initial
registry would produce it. -/
def sess0 : PAMSession :=
  { service_name := "sshd", user := "alice", handlerIndex := 1, retval := 0 }

/-- Oracle: every native call succeeds. -/
def oAllOk : NativeOracle :=
  { pam_start := 0, pam_acct_mgmt := 0, pam_open_session := 0,
    pam_close_session := 0, pam_end := 0,
    pam_strerror := fun _ => some "Success" }

/-- Oracle: `_pam_close_session` reports status 19 (`PAM_SESSION_ERR`). -/
def oCloseFail : NativeOracle :=
  { oAllOk with pam_close_session := 19,
                pam_strerror := fun _ => some "Session failure" }

/-- Oracle: `_pam_start` reports status 6 (`PAM_PERM_DENIED`) and the
status-to-text lookup yields a message. -/
def oStartFail : NativeOracle :=
  { oAllOk with pam_start := 6,
                pam_strerror := fun _ => some "Permission denied" }

/-- Oracle: `_pam_start` reports status 6 and `_pam_strerror` returns
NULL. -/
def oStartFailSilent : NativeOracle :=
  { oAllOk with pam_start := 6, pam_strerror := fun _ => none }

/-- Oracle: `_pam_acct_mgmt` reports status 6. -/
def oAcctFail : NativeOracle :=
  { oAllOk with pam_acct_mgmt := 6 }

/-- Oracle: `_pam_close_session` succeeds but `_pam_end` reports status 3
(`PAM_SERVICE_ERR`). -/
def oEndFail : NativeOracle :=
  { oAllOk with pam_end := 3,
                pam_strerror := fun _ => some "Error in service module" }

/-- A handler table with `hA` registered at id 1. -/
def handlers1 : Nat → Option Handler :=
  fun i => if i = 1 then some hA else none

/-- A handler table with the failing-stream handler at id 1. -/
def handlersNoLine : Nat → Option Handler :=
  fun i => if i = 1 then some hNoLine else none

/-- A handler table with the oversized-line handler at id 1. -/
def handlersLong : Nat → Option Handler :=
  fun i => if i = 1 then some hLong else none

/-! ### Helper lemmas -/

/-- `bytes.Replace` at the bridge's call site: with the one-byte pattern
`"\n"` and replacement `"\r\n"`, the scan expands every newline to CR-LF and
copies every other character. -/
theorem bytesReplace_newline (s : List Char) :
    bytesReplace s [Char.ofNat 10] [Char.ofNat 13, Char.ofNat 10] =
      s.flatMap (fun c =>
        if c = Char.ofNat 10 then [Char.ofNat 13, Char.ofNat 10] else [c]) := by
  induction s with
  | nil => rw [bytesReplace]; simp
  | cons c cs ih =>
    rw [bytesReplace]
    by_cases h : c = Char.ofNat 10
    · subst h
      simp [startsWith, ih]
    · simp [startsWith, h, ih]

/-- Newline translation preserves the newline count. -/
theorem count_newline_bytesReplace (s : List Char) :
    (bytesReplace s [Char.ofNat 10] [Char.ofNat 13, Char.ofNat 10]).count
        (Char.ofNat 10) = s.count (Char.ofNat 10) := by
  rw [bytesReplace_newline]
  induction s with
  | nil => simp
  | cons c cs ih =>
    by_cases h : c = Char.ofNat 10
    · subst h
      simp only [List.flatMap_cons, if_pos rfl, List.count_append, ih,
        List.count_cons]
      simp
      omega
    · simp only [List.flatMap_cons, if_neg h, List.count_append, ih,
        List.count_cons]
      simp [h]

/-- Newline translation adds exactly one carriage return per input
newline. -/
theorem count_cr_bytesReplace (s : List Char) :
    (bytesReplace s [Char.ofNat 10] [Char.ofNat 13, Char.ofNat 10]).count
        (Char.ofNat 13) =
      s.count (Char.ofNat 13) + s.count (Char.ofNat 10) := by
  rw [bytesReplace_newline]
  induction s with
  | nil => simp
  | cons c cs ih =>
    by_cases h : c = Char.ofNat 10
    · subst h
      simp only [List.flatMap_cons, if_pos rfl, List.count_append, ih,
        List.count_cons]
      simp
      omega
    · by_cases h13 : c = Char.ofNat 13
      · subst h13
        simp only [List.flatMap_cons, if_neg h, List.count_append, ih,
          List.count_cons]
        simp [h]
        omega
      · simp only [List.flatMap_cons, if_neg h, List.count_append, ih,
          List.count_cons]
        simp [h, h13]

/-! ### Claims about the conversation adapter -/

/-- Claim C6: every literal newline in the (already truncated) message text
is replaced by a carriage-return/newline pair before the text reaches the
destination stream: the written byte sequence is the input with each newline
expanded to CR-LF and every other character copied, so the newline count is
preserved and the carriage-return count grows by exactly the number of input
newlines; concretely, `"a\nb\nc"` is written as `"a\r\nb\r\nc"`. -/
theorem write_path_translates_newlines (stream : Nat) (s : List Char) :
    (writeStream stream s).2 =
      s.flatMap (fun c =>
        if c = Char.ofNat 10 then [Char.ofNat 13, Char.ofNat 10] else [c]) ∧
    (writeStream stream s).2.count (Char.ofNat 10) =
      s.count (Char.ofNat 10) ∧
    (writeStream stream s).2.count (Char.ofNat 13) =
      s.count (Char.ofNat 13) + s.count (Char.ofNat 10) ∧
    (writeStream 1 "a\nb\nc".toList).2 = "a\r\nb\r\nc".toList :=
  ⟨bytesReplace_newline s, count_newline_bytesReplace s,
   count_cr_bytesReplace s, by
     have hsnd : (writeStream 1 "a\nb\nc".toList).2 =
         bytesReplace "a\nb\nc".toList [Char.ofNat 10]
           [Char.ofNat 13, Char.ofNat 10] := rfl
     rw [hsnd, bytesReplace_newline]
     decide⟩

/-- Claim C4: a conversation callback presented with a handle id that is not
currently registered returns cleanly (the model functions are total, so no
crash is possible) with an empty/absent result, for both the write and the
read path; and a stream read error likewise makes the read path yield an
absent result instead of propagating an error to the native side. -/
theorem callbacks_survive_stale_handles :
    (∀ (handlers : Nat → Option Handler) (index stream : Nat)
        (s : List Char), handlers index = none →
          writeCallback handlers index stream s = none) ∧
    (∀ (handlers : Nat → Option Handler) (index : Nat) (e : Int),
        handlers index = none → readCallback handlers index e = none) ∧
    (∀ (handlers : Nat → Option Handler) (index : Nat) (e : Int)
        (h : Handler), handlers index = some h → h.stdinLine = none →
          readCallback handlers index e = none) := by
  refine ⟨?_, ?_, ?_⟩
  · intro handlers index stream s habsent
    simp [writeCallback, habsent]
  · intro handlers index e habsent
    simp [readCallback, habsent]
  · intro handlers index e h hreg hfail
    simp [readCallback, readStream, hreg, hfail]

/-- Witness for C4: concrete stale lookups and a concrete failing stream. -/
theorem callbacks_survive_stale_handles_witness :
    writeCallback (fun _ => none) 7 1 ['h', 'i'] = none ∧
    readCallback (fun _ => none) 7 0 = none ∧
    readCallback handlersNoLine 1 0 = none :=
  ⟨callbacks_survive_stale_handles.1 (fun _ => none) 7 1 ['h', 'i'] rfl,
   callbacks_survive_stale_handles.2.1 (fun _ => none) 7 0 rfl,
   callbacks_survive_stale_handles.2.2 handlersNoLine 1 0 hNoLine
     (by decide) (by decide)⟩

/-- Claim C7: every incoming NUL-free native message whose length reaches
or exceeds `PAM_MAX_MSG_SIZE` is cut to exactly `PAM_MAX_MSG_SIZE`
characters by the `strnlen`-bounded conversion before any further
processing, and the callback still writes normally (no error outcome): the
text handed to `writeStream` is the message's first `PAM_MAX_MSG_SIZE`
characters; in particular a message of length `PAM_MAX_MSG_SIZE + 50` is
cut to exactly `PAM_MAX_MSG_SIZE` characters. -/
theorem write_callback_truncates_oversized_message
    (handlers : Nat → Option Handler) (index stream : Nat) (h : Handler)
    (s : List Char) (hreg : handlers index = some h)
    (hnonul : ∀ c ∈ s, c ≠ nulChar)
    (hlen : PAM_MAX_MSG_SIZE ≤ s.length) :
    goStringN s (strnlen s PAM_MAX_MSG_SIZE) = s.take PAM_MAX_MSG_SIZE ∧
    (s.take PAM_MAX_MSG_SIZE).length = PAM_MAX_MSG_SIZE ∧
    writeCallback handlers index stream s =
      some (writeStream stream (s.take PAM_MAX_MSG_SIZE)) := by
  have hkeep : (s.take PAM_MAX_MSG_SIZE).takeWhile (fun c => c != nulChar) =
      s.take PAM_MAX_MSG_SIZE := by
    rw [List.takeWhile_eq_self_iff]
    intro x hx
    simpa using hnonul x (List.mem_of_mem_take hx)
  have hsn : strnlen s PAM_MAX_MSG_SIZE = PAM_MAX_MSG_SIZE := by
    rw [strnlen, hkeep, List.length_take]
    omega
  have hg : goStringN s (strnlen s PAM_MAX_MSG_SIZE) =
      s.take PAM_MAX_MSG_SIZE := by
    rw [goStringN, hsn]
  refine ⟨hg, ?_, ?_⟩
  · rw [List.length_take]; omega
  · simp [writeCallback, hreg, hg]

/-- Witness for C7: a NUL-free message of 562 = 512 + 50 characters through
a registered handler. -/
theorem write_callback_truncates_oversized_message_witness :
    goStringN longMsg (strnlen longMsg PAM_MAX_MSG_SIZE) =
      longMsg.take PAM_MAX_MSG_SIZE ∧
    (longMsg.take PAM_MAX_MSG_SIZE).length = PAM_MAX_MSG_SIZE ∧
    writeCallback handlers1 1 1 longMsg =
      some (writeStream 1 (longMsg.take PAM_MAX_MSG_SIZE)) :=
  write_callback_truncates_oversized_message handlers1 1 1 hA longMsg
    (by decide)
    (fun c hc => by rw [List.eq_of_mem_replicate hc]; decide)
    (by simp [longMsg])

/-- Claim C8: a line read by the read path longer than
`PAM_MAX_RESP_SIZE - 1` is silently truncated to exactly
`PAM_MAX_RESP_SIZE - 1` characters, reserving one byte for the NUL
terminator the native side expects, while a line of at most
`PAM_MAX_RESP_SIZE - 1` characters is returned unmodified. -/
theorem read_callback_truncates_long_lines
    (handlers : Nat → Option Handler) (index : Nat) (e : Int) (h : Handler)
    (line : List Char) (hreg : handlers index = some h)
    (hline : h.stdinLine = some line) :
    (PAM_MAX_RESP_SIZE - 1 < line.length →
       readCallback handlers index e =
         some (line.take (PAM_MAX_RESP_SIZE - 1)) ∧
       (line.take (PAM_MAX_RESP_SIZE - 1)).length = PAM_MAX_RESP_SIZE - 1) ∧
    (line.length ≤ PAM_MAX_RESP_SIZE - 1 →
       readCallback handlers index e = some line) := by
  constructor
  · intro hlong
    constructor
    · simp only [readCallback, readStream, hreg, hline]
      rw [if_pos hlong]
    · rw [List.length_take]
      omega
  · intro hshort
    simp only [readCallback, readStream, hreg, hline]
    rw [if_neg (by omega)]

/-- Witness for C8: a line of 522 = 512 + 10 characters comes back as its
first 511 characters, and the short line `"hi\n"` comes back unmodified. -/
theorem read_callback_truncates_long_lines_witness :
    readCallback handlersLong 1 0 =
      some (longLine.take (PAM_MAX_RESP_SIZE - 1)) ∧
    (longLine.take (PAM_MAX_RESP_SIZE - 1)).length = PAM_MAX_RESP_SIZE - 1 ∧
    readCallback handlers1 1 0 = some ['h', 'i', Char.ofNat 10] := by
  have hlong := (read_callback_truncates_long_lines handlersLong 1 0 hLong
    longLine (by decide) (by decide)).1 (by decide)
  have hshort := (read_callback_truncates_long_lines handlers1 1 0 hA
    ['h', 'i', Char.ofNat 10] (by decide) (by decide)).2 (by decide)
  exact ⟨hlong.1, hlong.2, hshort⟩

/-! ### Claims about the handler registry -/

/-- The initial registry satisfies the registry invariant. -/
theorem regInv_init : regInv initRegistry := by
  intro i hi
  simp [initRegistry] at hi

/-- Every registry operation preserves the registry invariant. -/
theorem regInv_step (reg : RegistryState) (op : RegOp) (h : regInv reg) :
    regInv (regStep reg op) := by
  cases op with
  | register hd =>
    intro i hi
    simp only [regStep, registerHandler] at hi ⊢
    by_cases hieq : i = reg.handlerCount + 1
    · subst hieq
      omega
    · rw [if_neg hieq] at hi
      have := h i hi
      omega
  | unregister idx =>
    intro i hi
    simp only [regStep, unregisterHandler] at hi ⊢
    by_cases hieq : i = idx
    · rw [if_pos hieq] at hi
      simp at hi
    · rw [if_neg hieq] at hi
      exact h i hi

/-- The registry invariant holds after any sequence of operations. -/
theorem regInv_foldl (ops : List RegOp) (reg : RegistryState)
    (h : regInv reg) : regInv (ops.foldl regStep reg) := by
  induction ops generalizing reg with
  | nil => exact h
  | cons op rest ih => exact ih _ (regInv_step reg op h)

/-- Under the invariant, the id the next registration would assign is not
currently in the table. -/
theorem regInv_fresh (reg : RegistryState) (h : regInv reg) :
    reg.handlers (reg.handlerCount + 1) = none := by
  cases hh : reg.handlers (reg.handlerCount + 1) with
  | none => rfl
  | some hd =>
    have := h (reg.handlerCount + 1) (by rw [hh]; rfl)
    omega

/-- Claim C9: after any serialized interleaving of register and unregister
calls (the `handlerMu` lock serializes them), every registered id is a
positive integer bounded by `handlerCount`, and the id `registerHandler`
assigns next is positive, absent from the current table — so no live session
ever shares it, and an id held by a live session is never reassigned before
that session unregisters — and maps to the new handler afterwards.  The
table is a map, so each id holds at most one handler by construction. -/
theorem registry_assigns_unique_fresh_ids (ops : List RegOp) (h : Handler) :
    regInv (regRun ops) ∧
    0 < (registerHandler (regRun ops) h).2 ∧
    (regRun ops).handlers ((registerHandler (regRun ops) h).2) = none ∧
    (registerHandler (regRun ops) h).1.handlers
      ((registerHandler (regRun ops) h).2) = some h := by
  have hinv : regInv (regRun ops) := regInv_foldl ops initRegistry regInv_init
  refine ⟨hinv, by simp [registerHandler], ?_, by simp [registerHandler]⟩
  exact regInv_fresh _ hinv

/-- Witness for C9: a concrete register/unregister/register interleaving. -/
theorem registry_assigns_unique_fresh_ids_witness :
    regInv (regRun [RegOp.register hA, RegOp.unregister 1,
                    RegOp.register hNoLine]) ∧
    0 < (registerHandler (regRun [RegOp.register hA, RegOp.unregister 1,
                                  RegOp.register hNoLine]) hA).2 ∧
    (regRun [RegOp.register hA, RegOp.unregister 1,
             RegOp.register hNoLine]).handlers
      ((registerHandler (regRun [RegOp.register hA, RegOp.unregister 1,
                                 RegOp.register hNoLine]) hA).2) = none ∧
    (registerHandler (regRun [RegOp.register hA, RegOp.unregister 1,
                              RegOp.register hNoLine]) hA).1.handlers
      ((registerHandler (regRun [RegOp.register hA, RegOp.unregister 1,
                                 RegOp.register hNoLine]) hA).2) = some hA :=
  registry_assigns_unique_fresh_ids
    [RegOp.register hA, RegOp.unregister 1, RegOp.register hNoLine] hA

/-! ### Claims about Open and Close -/

/-- Claim C5: `Open` with an absent configuration fails with the
bad-parameter error before doing anything else: no native call is issued,
no native memory is allocated, no handler is registered, and the registry is
unchanged. -/
theorem open_nil_config_fails_before_any_native_call
    (o : NativeOracle) (reg : RegistryState) :
    Open o reg none =
      ({ session := none,
         err := some (PamError.badParameter "PAM configuration is required."),
         calls := [], allocs := 0, registered := false }, reg) := rfl

/-- Helper: the exact outcome of `Open` on each failure point of its
three-call sequence. -/
theorem open_failure_outcomes (o : NativeOracle) (reg : RegistryState)
    (c : Config) :
    (o.pam_start ≠ PAM_SUCCESS →
       (Open o reg (some c)).1.session = none ∧
       (Open o reg (some c)).1.err = codeToError o o.pam_start) ∧
    (o.pam_start = PAM_SUCCESS → o.pam_acct_mgmt ≠ PAM_SUCCESS →
       (Open o reg (some c)).1.session = none ∧
       (Open o reg (some c)).1.err = codeToError o o.pam_acct_mgmt) ∧
    (o.pam_start = PAM_SUCCESS → o.pam_acct_mgmt = PAM_SUCCESS →
     o.pam_open_session ≠ PAM_SUCCESS →
       (Open o reg (some c)).1.session = none ∧
       (Open o reg (some c)).1.err = codeToError o o.pam_open_session) := by
  refine ⟨?_, ?_, ?_⟩
  · intro h1
    simp [Open, registerHandler, h1]
  · intro h1 h2
    simp [Open, registerHandler, h1, h2]
  · intro h1 h2 h3
    simp [Open, registerHandler, h1, h2, h3]

/-- Claim C3: `Open` issues its native calls in the fixed order
transaction-start, account-management, open-session, stopping at the first
non-success: the call trace is the prefix of that sequence up to and
including the first failing call; in particular a transaction-start failure
means account-management (and open-session) is never invoked, and an
account-management failure means open-session is never invoked. -/
theorem open_calls_ordered_and_short_circuit (o : NativeOracle)
    (reg : RegistryState) (c : Config) :
    ((Open o reg (some c)).1.calls =
        if o.pam_start ≠ PAM_SUCCESS then [NativeCall.pam_start]
        else if o.pam_acct_mgmt ≠ PAM_SUCCESS then
          [NativeCall.pam_start, NativeCall.pam_acct_mgmt]
        else [NativeCall.pam_start, NativeCall.pam_acct_mgmt,
              NativeCall.pam_open_session]) ∧
    (o.pam_start ≠ PAM_SUCCESS →
        NativeCall.pam_acct_mgmt ∉ (Open o reg (some c)).1.calls ∧
        NativeCall.pam_open_session ∉ (Open o reg (some c)).1.calls) ∧
    (o.pam_acct_mgmt ≠ PAM_SUCCESS →
        NativeCall.pam_open_session ∉ (Open o reg (some c)).1.calls) := by
  refine ⟨?_, ?_, ?_⟩
  · simp only [Open, registerHandler]
    split_ifs <;> rfl
  · intro h1
    simp [Open, registerHandler, h1]
  · intro h2
    by_cases h1 : o.pam_start = PAM_SUCCESS
    · simp [Open, registerHandler, h1, h2]
    · simp [Open, registerHandler, h1]

/-- Witness for C3: with `_pam_acct_mgmt` failing, the trace stops after
account-management and open-session is never called. -/
theorem open_calls_ordered_and_short_circuit_witness :
    (Open oAcctFail initRegistry (some cfg0)).1.calls =
      [NativeCall.pam_start, NativeCall.pam_acct_mgmt] ∧
    NativeCall.pam_open_session ∉
      (Open oAcctFail initRegistry (some cfg0)).1.calls := by
  have h := open_calls_ordered_and_short_circuit oAcctFail initRegistry cfg0
  refine ⟨?_, h.2.2 (by decide)⟩
  rw [h.1]
  decide

/-- Claim C1 counterexample: with `_pam_close_session` reporting status 19,
`Close` issues no `_pam_end` call, frees none of the three native
allocations, and leaves the handler registered — refuting the claim that the
transaction-end call and the releases happen even when close-session
fails. -/
theorem close_skips_teardown_on_failure_cx :
    oCloseFail.pam_close_session ≠ PAM_SUCCESS ∧
    (Close oCloseFail initRegistry sess0).1.calls =
      [NativeCall.pam_close_session] ∧
    NativeCall.pam_end ∉ (Close oCloseFail initRegistry sess0).1.calls ∧
    (Close oCloseFail initRegistry sess0).1.freedConv = false ∧
    (Close oCloseFail initRegistry sess0).1.freedServiceName = false ∧
    (Close oCloseFail initRegistry sess0).1.freedUser = false ∧
    (Close oCloseFail initRegistry sess0).1.unregistered = false := by
  decide

/-- Claim C1 (amended): when close-session reports a non-success status,
`Close` returns the translated error immediately — the transaction-end call
is not issued, none of the conversation descriptor and the two string
buffers is freed, and the handler stays registered; when close-session
succeeds but transaction-end fails, transaction-end was issued yet the
frees and the unregistration are likewise skipped; the teardown (the three
frees, each exactly once, and the unregistration) happens exactly on the
path where both close-session and transaction-end succeed. -/
theorem close_teardown_only_after_success (o : NativeOracle)
    (reg : RegistryState) (p : PAMSession) :
    (o.pam_close_session ≠ PAM_SUCCESS →
       (Close o reg p).1.err = codeToError o o.pam_close_session ∧
       (Close o reg p).1.calls = [NativeCall.pam_close_session] ∧
       (Close o reg p).1.freedConv = false ∧
       (Close o reg p).1.freedServiceName = false ∧
       (Close o reg p).1.freedUser = false ∧
       (Close o reg p).1.unregistered = false ∧
       (Close o reg p).2 = reg) ∧
    (o.pam_close_session = PAM_SUCCESS → o.pam_end ≠ PAM_SUCCESS →
       (Close o reg p).1.err = codeToError o o.pam_end ∧
       (Close o reg p).1.calls =
         [NativeCall.pam_close_session, NativeCall.pam_end] ∧
       (Close o reg p).1.freedConv = false ∧
       (Close o reg p).1.freedServiceName = false ∧
       (Close o reg p).1.freedUser = false ∧
       (Close o reg p).1.unregistered = false ∧
       (Close o reg p).2 = reg) ∧
    (o.pam_close_session = PAM_SUCCESS → o.pam_end = PAM_SUCCESS →
       (Close o reg p).1.err = none ∧
       (Close o reg p).1.calls =
         [NativeCall.pam_close_session, NativeCall.pam_end] ∧
       (Close o reg p).1.freedConv = true ∧
       (Close o reg p).1.freedServiceName = true ∧
       (Close o reg p).1.freedUser = true ∧
       (Close o reg p).1.unregistered = true ∧
       (Close o reg p).2 = unregisterHandler reg p.handlerIndex) ∧
    (((Close o reg p).1.freedConv = true ∧
      (Close o reg p).1.freedServiceName = true ∧
      (Close o reg p).1.freedUser = true ∧
      (Close o reg p).1.unregistered = true) ↔
      (o.pam_close_session = PAM_SUCCESS ∧ o.pam_end = PAM_SUCCESS)) := by
  refine ⟨?_, ?_, ?_, ?_⟩
  · intro hfail
    simp [Close, hfail]
  · intro h1 h2
    simp [Close, h1, h2]
  · intro h1 h2
    simp [Close, h1, h2]
  · by_cases h1 : o.pam_close_session = PAM_SUCCESS
    · by_cases h2 : o.pam_end = PAM_SUCCESS
      · simp [Close, h1, h2]
      · simp [Close, h1, h2]
    · simp [Close, h1]

/-- Witness for C1 (amended): a failing close-session, a failing
transaction-end after a successful close-session, and a fully successful
close. -/
theorem close_teardown_only_after_success_witness :
    (Close oCloseFail initRegistry sess0).1.calls =
      [NativeCall.pam_close_session] ∧
    (Close oCloseFail initRegistry sess0).1.freedConv = false ∧
    (Close oEndFail initRegistry sess0).1.calls =
      [NativeCall.pam_close_session, NativeCall.pam_end] ∧
    (Close oEndFail initRegistry sess0).1.freedConv = false ∧
    (Close oEndFail initRegistry sess0).1.unregistered = false ∧
    (Close oAllOk initRegistry sess0).1.calls =
      [NativeCall.pam_close_session, NativeCall.pam_end] ∧
    (Close oAllOk initRegistry sess0).1.freedConv = true := by
  have h1 := (close_teardown_only_after_success oCloseFail initRegistry
    sess0).1 (by decide)
  have h2 := (close_teardown_only_after_success oEndFail initRegistry
    sess0).2.1 (by decide) (by decide)
  have h3 := (close_teardown_only_after_success oAllOk initRegistry
    sess0).2.2.1 (by decide) (by decide)
  exact ⟨h1.2.1, h1.2.2.1, h2.2.1, h2.2.2.1, h2.2.2.2.2.2.1, h3.2.1,
    h3.2.2.1⟩

/-- Claim C2 counterexample: with `_pam_start` failing and `_pam_strerror`
returning NULL, `Open` returns a nil session together with a nil error —
the native failure is silently swallowed, refuting the claim that a
non-success status always becomes a non-nil error. -/
theorem open_swallows_failure_with_null_strerror_cx :
    oStartFailSilent.pam_start ≠ PAM_SUCCESS ∧
    (Open oStartFailSilent initRegistry (some cfg0)).1.session = none ∧
    (Open oStartFailSilent initRegistry (some cfg0)).1.err = none := by
  decide

/-- Claim C2 (amended): the first non-success status of `Open`'s call
sequence aborts the remaining steps with a nil session and the error
produced by `codeToError`, and likewise each failing `Close` step returns
`codeToError` of its status; this error carries the library's
status-to-text message whenever the lookup yields one, but when the lookup
returns NULL the mapped error is nil, so the failure is silently swallowed
(`Open` then returns both a nil session and a nil error). -/
theorem open_close_translate_first_failure (o : NativeOracle)
    (reg : RegistryState) (c : Config) (p : PAMSession) :
    (∀ code, firstFailure o = some code →
       (Open o reg (some c)).1.session = none ∧
       (Open o reg (some c)).1.err = codeToError o code ∧
       (∀ msg, o.pam_strerror code = some msg →
          (Open o reg (some c)).1.err = some (PamError.badParameter msg)) ∧
       (o.pam_strerror code = none →
          (Open o reg (some c)).1.err = none)) ∧
    (o.pam_close_session ≠ PAM_SUCCESS →
       (Close o reg p).1.err = codeToError o o.pam_close_session) ∧
    (o.pam_close_session = PAM_SUCCESS → o.pam_end ≠ PAM_SUCCESS →
       (Close o reg p).1.err = codeToError o o.pam_end) := by
  have hout := open_failure_outcomes o reg c
  refine ⟨?_, ?_, ?_⟩
  · intro code hcode
    have hsc : (Open o reg (some c)).1.session = none ∧
        (Open o reg (some c)).1.err = codeToError o code := by
      by_cases h1 : o.pam_start = PAM_SUCCESS
      · by_cases h2 : o.pam_acct_mgmt = PAM_SUCCESS
        · by_cases h3 : o.pam_open_session = PAM_SUCCESS
          · exfalso
            simp [firstFailure, h1, h2, h3] at hcode
          · have hc : o.pam_open_session = code := by
              simpa [firstFailure, h1, h2, h3] using hcode
            rw [← hc]
            exact hout.2.2 h1 h2 h3
        · have hc : o.pam_acct_mgmt = code := by
            simpa [firstFailure, h1, h2] using hcode
          rw [← hc]
          exact hout.2.1 h1 h2
      · have hc : o.pam_start = code := by
          simpa [firstFailure, h1] using hcode
        rw [← hc]
        exact hout.1 h1
    refine ⟨hsc.1, hsc.2, ?_, ?_⟩
    · intro msg hmsg
      rw [hsc.2]
      simp [codeToError, hmsg]
    · intro hnull
      rw [hsc.2]
      simp [codeToError, hnull]
  · intro hfail
    simp [Close, hfail]
  · intro h1 h2
    simp [Close, h1, h2]

/-- Witness for C2 (amended): `_pam_start` fails with code 6 and the lookup
yields "Permission denied"; `Open` returns that message and no session. -/
theorem open_close_translate_first_failure_witness :
    (Open oStartFail initRegistry (some cfg0)).1.session = none ∧
    (Open oStartFail initRegistry (some cfg0)).1.err =
      some (PamError.badParameter "Permission denied") := by
  have h := (open_close_translate_first_failure oStartFail initRegistry
    cfg0 sess0).1 6 (by decide)
  exact ⟨h.1, h.2.2.1 "Permission denied" (by decide)⟩

/-! ### Claim about the no-op fallback build -/

/-- Claim C10: in the no-op fallback build, `Open` returns a non-nil
session and a nil error for every configuration argument including a nil
one, `Close` always returns nil, and both capability queries return
false. -/
theorem nop_build_trivially_succeeds (config : Option Config)
    (p : Nop.PAM) :
    Nop.Open config = (some Nop.PAM.mk, none) ∧
    Nop.Close p = none ∧
    Nop.BuildHasPAM = false ∧
    Nop.SystemHasPAM = false :=
  ⟨rfl, rfl, rfl, rfl⟩

end Pam
